import Mathlib

/-!
Verification of the indirect-heating tank pump controller
(`scripts/indirect_heating_tank_pump.shelly.js`).

The script reads two DS18B20 temperatures (storage tank and heating
source), compares them against a merged configuration, and starts or
stops a circulation pump through a Shelly switch. We embed:

* the configuration object and its `Object.assign` merge over
  `DEFAULT_CONFIG` (function `init`, lines 148-169 of the script);
* the core decision function `checkAndAdjust` (lines 105-128) as a pure
  function from the two readings, the observed pump state and the
  configuration to a decision (`Start` / `Stop` / `Hold`) together with
  the rationale the script logs;
* the startup sequence `run` (lines 131-135), which unconditionally
  stops the pump before the first evaluation.

Temperatures are modelled as rationals: the script compares IEEE
doubles with `>=`, `<=`, `<` and never performs arithmetic beyond a
single addition, so the ordered-field structure of `ℚ` captures every
comparison exactly. A failed sensor read (the Shelly call throwing,
caught at line 125) is modelled by an `Option` reading being `none`.
-/

/-- Values storable in a configuration object: the script only ever
stores numbers and booleans, strings appear in user overrides. -/
inductive ConfigValue
  | num (q : ℚ)
  | bool (b : Bool)
  | str (s : String)
deriving DecidableEq

/-- A JavaScript object as an association list of own properties; the
first binding of a key wins on lookup. -/
abbrev JsObj := List (String × ConfigValue)

/-- Property lookup on a JavaScript object. -/
def lookupKey (k : String) : JsObj → Option ConfigValue
  | [] => none
  | p :: rest => if p.1 = k then some p.2 else lookupKey k rest

/-- The `DEFAULT_CONFIG` object of the script (lines 27-42). -/
def DEFAULT_CONFIG : JsObj :=
  [ ("scanInterval", ConfigValue.num 30),
    ("hotWaterTemperatureID", ConfigValue.num 100),
    ("heatingSourceTemperatureID", ConfigValue.num 101),
    ("maxWaterTemp", ConfigValue.num 65),
    ("waterPumpHysteresis", ConfigValue.num 7),
    ("waterPumpStopDifference", ConfigValue.num 5),
    ("debuggingOn", ConfigValue.bool false) ]

/-- The merge `Object.assign(\x7b\x7d, base, overrides)` (line 161),
observed through property lookup: a key present in `overrides` shadows
the same key of `base`. -/
def objAssign (base overrides : JsObj) : JsObj :=
  overrides ++ base

/-- Configuration construction: merge the loaded overrides over
`DEFAULT_CONFIG` (line 161). -/
def buildConfig (overrides : JsObj) : JsObj :=
  objAssign DEFAULT_CONFIG overrides

/-- The recognized configuration field names: the keys of
`DEFAULT_CONFIG`, which are exactly the properties the script ever
reads from `CONFIG`. -/
def recognizedFields : List String :=
  [ "scanInterval", "hotWaterTemperatureID", "heatingSourceTemperatureID",
    "maxWaterTemp", "waterPumpHysteresis", "waterPumpStopDifference",
    "debuggingOn" ]

/-- The Configuration of the data model: the merged object projected
onto the recognized fields, i.e. onto every property the script reads. -/
structure ConfigFields where
  scanInterval : Option ConfigValue
  hotWaterTemperatureID : Option ConfigValue
  heatingSourceTemperatureID : Option ConfigValue
  maxWaterTemp : Option ConfigValue
  waterPumpHysteresis : Option ConfigValue
  waterPumpStopDifference : Option ConfigValue
  debuggingOn : Option ConfigValue
deriving DecidableEq

/-- Read the recognized configuration fields out of a merged object. -/
def toConfigFields (obj : JsObj) : ConfigFields where
  scanInterval := lookupKey "scanInterval" obj
  hotWaterTemperatureID := lookupKey "hotWaterTemperatureID" obj
  heatingSourceTemperatureID := lookupKey "heatingSourceTemperatureID" obj
  maxWaterTemp := lookupKey "maxWaterTemp" obj
  waterPumpHysteresis := lookupKey "waterPumpHysteresis" obj
  waterPumpStopDifference := lookupKey "waterPumpStopDifference" obj
  debuggingOn := lookupKey "debuggingOn" obj

/-- JavaScript truthiness of a stored value, as tested by
`if (CONFIG.debuggingOn)` in `debugLog` (line 52). -/
def jsTruthy : ConfigValue → Bool
  | ConfigValue.num q => decide (q ≠ 0)
  | ConfigValue.bool b => b
  | ConfigValue.str s => decide (s ≠ "")

/-- Truthiness of `obj.debuggingOn`; an absent property is `undefined`
and hence falsy. -/
def configDebugOn (obj : JsObj) : Bool :=
  match lookupKey "debuggingOn" obj with
  | some v => jsTruthy v
  | none => false

/-- Outcome of the `KVS.Get` call plus `JSON.parse` in `init`
(lines 148-157), abstracting the external store and parser by their
result: no stored value, a stored value that fails to parse (the parse
throws, line 154), or a successfully parsed override object. -/
inductive KvsOutcome
  | noValue
  | malformed
  | parsed (overrides : JsObj)
deriving DecidableEq

/-- The `loadedConfig` variable after lines 149-157: it stays the empty
object unless the KVS value exists and parses (the `catch` at line 154
is empty, so a parse failure leaves it empty). -/
def initLoadedConfig : KvsOutcome → JsObj
  | KvsOutcome.noValue => []
  | KvsOutcome.malformed => []
  | KvsOutcome.parsed overrides => overrides

/-- The `CONFIG` object produced by the `init` callback (line 161). -/
def initConfig (k : KvsOutcome) : JsObj :=
  buildConfig (initLoadedConfig k)

/-- Everything the `init` callback prints (lines 148-169): the empty
`catch` of the parse emits nothing, and the outcome line at lines
165-169 goes through `debugLog`, gated by the merged configuration's
`debuggingOn`. -/
def initLog (k : KvsOutcome) : List String :=
  if configDebugOn (initConfig k) then
    if (initLoadedConfig k).length > 0 then
      ["Custom configuration loaded from KVS."]
    else
      ["No custom configuration found in KVS. Using default settings."]
  else []

/-- The configuration as consumed by the decision function: numeric
thresholds, sensor identifiers and the logging flag, with the field
names of `DEFAULT_CONFIG`. -/
structure Configuration where
  scanInterval : ℚ
  hotWaterTemperatureID : ℕ
  heatingSourceTemperatureID : ℕ
  maxWaterTemp : ℚ
  waterPumpHysteresis : ℚ
  waterPumpStopDifference : ℚ
  debuggingOn : Bool
deriving DecidableEq

/-- The default configuration values (lines 27-42) as a
`Configuration`. -/
def defaultConfiguration : Configuration where
  scanInterval := 30
  hotWaterTemperatureID := 100
  heatingSourceTemperatureID := 101
  maxWaterTemp := 65
  waterPumpHysteresis := 7
  waterPumpStopDifference := 5
  debuggingOn := false

/-- Decision of one evaluation tick: start the pump, stop it, or hold
(no branch of `checkAndAdjust` fired, no command issued). -/
inductive Decision
  | Start
  | Stop
  | Hold
deriving DecidableEq

/-- Rationale the script logs with each decision: the caught sensor
read error carrying the failed sensor id (line 126, the read at line
107 or 108 throwing), or the message of the branch taken. -/
inductive Rationale
  | sensorReadError (sensorId : ℕ)
  | maxTemperatureReached
  | temperatureDifferenceTooLow
  | heatingSourceHotEnough
  | noConditionMet
deriving DecidableEq

/-- The core decision function `checkAndAdjust` (lines 105-128).
`tankReading` and `sourceReading` are the two `getComponentStatus`
temperature reads, `none` when the read throws; the tank sensor is
read first (line 107), so if it fails the source is never read and the
caught error names the tank sensor. The three guarded branches are
lines 113, 117 and 121 in the script's order. -/
def checkAndAdjust (config : Configuration) (tankReading sourceReading : Option ℚ)
    (pumpRunning : Bool) : Decision × Rationale :=
  match tankReading with
  | none => (Decision.Hold, Rationale.sensorReadError config.hotWaterTemperatureID)
  | some hotWaterTemperature =>
    match sourceReading with
    | none => (Decision.Hold, Rationale.sensorReadError config.heatingSourceTemperatureID)
    | some heatingSourceTemperature =>
      if hotWaterTemperature ≥ config.maxWaterTemp ∧ pumpRunning = true then
        (Decision.Stop, Rationale.maxTemperatureReached)
      else if heatingSourceTemperature ≤ hotWaterTemperature + config.waterPumpStopDifference ∧
          pumpRunning = true then
        (Decision.Stop, Rationale.temperatureDifferenceTooLow)
      else if hotWaterTemperature < config.maxWaterTemp ∧
          heatingSourceTemperature ≥ hotWaterTemperature + config.waterPumpHysteresis ∧
          pumpRunning = false then
        (Decision.Start, Rationale.heatingSourceHotEnough)
      else
        (Decision.Hold, Rationale.noConditionMet)

/-- A command to the switch actuator, `Switch.Set` with the given value
of its `on` parameter (lines 68-78 and 86-96). -/
inductive ActuatorCommand
  | set (turnOn : Bool)
deriving DecidableEq

/-- The actuator command a decision issues: `Start` calls
`startWaterPump`, `Stop` calls `stopWaterPump`, `Hold` issues none. -/
def commandFor : Decision → Option ActuatorCommand
  | Decision.Start => some (ActuatorCommand.set true)
  | Decision.Stop => some (ActuatorCommand.set false)
  | Decision.Hold => none

/-- The pump state after a decision is applied: `Start` turns the
switch on, `Stop` turns it off, `Hold` leaves it as observed. -/
def applyDecision : Decision → Bool → Bool
  | Decision.Start, _ => true
  | Decision.Stop, _ => false
  | Decision.Hold, pump => pump

/-- The actuator commands issued by `run` (lines 131-135) up to the
first evaluation: `stopWaterPump()` unconditionally (line 132), then
whatever the immediate `checkAndAdjust` call issues, observing the pump
state left by that stop. -/
def runStartupCommands (config : Configuration) (tankReading sourceReading : Option ℚ)
    (pumpRunning : Bool) : List ActuatorCommand :=
  ActuatorCommand.set false ::
    (commandFor
      (checkAndAdjust config tankReading sourceReading
        (applyDecision Decision.Stop pumpRunning)).1).toList

theorem lookupKey_filter (k : String) (f : String → Bool) (hk : f k = true) :
    ∀ l : JsObj, lookupKey k (l.filter (fun p => f p.1)) = lookupKey k l := by
  intro l
  induction l with
  | nil => rfl
  | cons p rest ih =>
    by_cases h : p.1 = k
    · subst h
      simp [List.filter_cons, hk, lookupKey]
    · by_cases hf : f p.1 <;> simp [List.filter_cons, hf, lookupKey, h, ih]

theorem lookupKey_append (k : String) :
    ∀ l₁ l₂ : JsObj,
      lookupKey k (l₁ ++ l₂) =
        match lookupKey k l₁ with
        | some v => some v
        | none => lookupKey k l₂ := by
  intro l₁ l₂
  induction l₁ with
  | nil => rfl
  | cons p rest ih =>
    by_cases h : p.1 = k <;> simp [lookupKey, h, ih]

example : (checkAndAdjust defaultConfiguration (some 40) (some 48) false).1 = Decision.Start := by
  norm_num [checkAndAdjust, defaultConfiguration]

example : (checkAndAdjust defaultConfiguration (some 65) (some 80) true).1 = Decision.Stop := by
  norm_num [checkAndAdjust, defaultConfiguration]

example : (checkAndAdjust defaultConfiguration (some 50) (some 54) true).1 = Decision.Stop := by
  norm_num [checkAndAdjust, defaultConfiguration]

example : (checkAndAdjust defaultConfiguration (some 40) (some 45) false).1 = Decision.Hold := by
  norm_num [checkAndAdjust, defaultConfiguration]

/-- C1: if either sensor read failed, the evaluation returns `Hold` with
a rationale identifying the failed sensor (the tank sensor is read
first, so a tank failure masks the source), no actuator command is
issued, and the pump retains its current state. -/
theorem checkAndAdjust_sensor_fault_holds (config : Configuration)
    (tankReading sourceReading : Option ℚ) (pumpRunning : Bool)
    (h : tankReading = none ∨ sourceReading = none) :
    (checkAndAdjust config tankReading sourceReading pumpRunning).1 = Decision.Hold ∧
    commandFor (checkAndAdjust config tankReading sourceReading pumpRunning).1 = none ∧
    applyDecision (checkAndAdjust config tankReading sourceReading pumpRunning).1 pumpRunning =
      pumpRunning ∧
    (checkAndAdjust config tankReading sourceReading pumpRunning).2 =
      Rationale.sensorReadError
        (if tankReading = none then config.hotWaterTemperatureID
         else config.heatingSourceTemperatureID) := by
  rcases h with h | h
  · subst h
    simp [checkAndAdjust, commandFor, applyDecision]
  · subst h
    cases tankReading with
    | none => simp [checkAndAdjust, commandFor, applyDecision]
    | some t => simp [checkAndAdjust, commandFor, applyDecision]

theorem checkAndAdjust_sensor_fault_holds_witness :
    ((none : Option ℚ) = none ∨ (some (50 : ℚ)) = none) ∧
    ((checkAndAdjust defaultConfiguration none (some 50) true).1 = Decision.Hold ∧
     commandFor (checkAndAdjust defaultConfiguration none (some 50) true).1 = none ∧
     applyDecision (checkAndAdjust defaultConfiguration none (some 50) true).1 true = true ∧
     (checkAndAdjust defaultConfiguration none (some 50) true).2 =
       Rationale.sensorReadError
         (if (none : Option ℚ) = none then defaultConfiguration.hotWaterTemperatureID
          else defaultConfiguration.heatingSourceTemperatureID)) :=
  ⟨Or.inl rfl,
   checkAndAdjust_sensor_fault_holds defaultConfiguration none (some 50) true (Or.inl rfl)⟩

/-- C2: for every configuration, successful readings and pump state,
the evaluation never results in `Start` while the tank temperature is
at or above `maxWaterTemp`; the start branch tests the strict
inequality tank < maxWaterTemp. -/
theorem checkAndAdjust_never_starts_at_max (config : Configuration) (tank source : ℚ)
    (pumpRunning : Bool) (h : tank ≥ config.maxWaterTemp) :
    (checkAndAdjust config (some tank) (some source) pumpRunning).1 ≠ Decision.Start := by
  simp only [checkAndAdjust]
  split_ifs with h1 h2 h3
  · simp
  · simp
  · exact absurd h3.1 (not_lt.mpr h)
  · simp

theorem checkAndAdjust_never_starts_at_max_witness :
    (65 : ℚ) ≥ defaultConfiguration.maxWaterTemp ∧
    (checkAndAdjust defaultConfiguration (some 65) (some 100) false).1 ≠ Decision.Start :=
  ⟨by norm_num [defaultConfiguration],
   checkAndAdjust_never_starts_at_max defaultConfiguration 65 100 false
     (by norm_num [defaultConfiguration])⟩

/-- C3: with both readings successful, tank temperature at or above
`maxWaterTemp` and the pump running, the evaluation results in `Stop`,
whatever the source temperature is (the max-temperature branch fires
first). -/
theorem checkAndAdjust_max_cutoff_stops (config : Configuration) (tank source : ℚ)
    (h : tank ≥ config.maxWaterTemp) :
    (checkAndAdjust config (some tank) (some source) true).1 = Decision.Stop := by
  simp only [checkAndAdjust]
  rw [if_pos ⟨h, trivial⟩]

theorem checkAndAdjust_max_cutoff_stops_witness :
    (65 : ℚ) ≥ defaultConfiguration.maxWaterTemp ∧
    (checkAndAdjust defaultConfiguration (some 65) (some 20) true).1 = Decision.Stop :=
  ⟨by norm_num [defaultConfiguration],
   checkAndAdjust_max_cutoff_stops defaultConfiguration 65 20
     (by norm_num [defaultConfiguration])⟩

/-- C5: with both readings successful, tank below `maxWaterTemp`, the
pump stopped, and the source at least `waterPumpHysteresis` above the
tank, the evaluation results in `Start`. -/
theorem checkAndAdjust_start_condition (config : Configuration) (tank source : ℚ)
    (hmax : tank < config.maxWaterTemp)
    (hgap : source ≥ tank + config.waterPumpHysteresis) :
    (checkAndAdjust config (some tank) (some source) false).1 = Decision.Start := by
  simp only [checkAndAdjust]
  rw [if_neg (by simp), if_neg (by simp), if_pos ⟨hmax, hgap, trivial⟩]

theorem checkAndAdjust_start_condition_witness :
    (40 : ℚ) < defaultConfiguration.maxWaterTemp ∧
    (48 : ℚ) ≥ 40 + defaultConfiguration.waterPumpHysteresis ∧
    (checkAndAdjust defaultConfiguration (some 40) (some 48) false).1 = Decision.Start :=
  ⟨by norm_num [defaultConfiguration], by norm_num [defaultConfiguration],
   checkAndAdjust_start_condition defaultConfiguration 40 48
     (by norm_num [defaultConfiguration]) (by norm_num [defaultConfiguration])⟩

/-- C6: with both readings successful, the pump running and the source
no more than `waterPumpStopDifference` above the tank, the evaluation
results in `Stop` — through the max-temperature branch when the tank is
at its maximum, through the efficiency branch otherwise. -/
theorem checkAndAdjust_efficiency_stop (config : Configuration) (tank source : ℚ)
    (hgap : source ≤ tank + config.waterPumpStopDifference) :
    (checkAndAdjust config (some tank) (some source) true).1 = Decision.Stop := by
  simp only [checkAndAdjust]
  by_cases h1 : tank ≥ config.maxWaterTemp
  · rw [if_pos ⟨h1, trivial⟩]
  · rw [if_neg (fun hc => h1 hc.1), if_pos ⟨hgap, trivial⟩]

theorem checkAndAdjust_efficiency_stop_witness :
    (54 : ℚ) ≤ 50 + defaultConfiguration.waterPumpStopDifference ∧
    (checkAndAdjust defaultConfiguration (some 50) (some 54) true).1 = Decision.Stop :=
  ⟨by norm_num [defaultConfiguration],
   checkAndAdjust_efficiency_stop defaultConfiguration 50 54
     (by norm_num [defaultConfiguration])⟩

theorem checkAndAdjust_some_false (config : Configuration) (T S : ℚ) :
    checkAndAdjust config (some T) (some S) false =
      if T < config.maxWaterTemp ∧ S ≥ T + config.waterPumpHysteresis then
        (Decision.Start, Rationale.heatingSourceHotEnough)
      else (Decision.Hold, Rationale.noConditionMet) := by
  by_cases h : T < config.maxWaterTemp ∧ S ≥ T + config.waterPumpHysteresis
  · rw [if_pos h]
    simp only [checkAndAdjust]
    rw [if_neg (by simp), if_neg (by simp), if_pos ⟨h.1, h.2, trivial⟩]
  · rw [if_neg h]
    simp only [checkAndAdjust]
    rw [if_neg (by simp), if_neg (by simp), if_neg (fun hc => h ⟨hc.1, hc.2.1⟩)]

theorem checkAndAdjust_some_true (config : Configuration) (T S : ℚ) :
    checkAndAdjust config (some T) (some S) true =
      if T ≥ config.maxWaterTemp then (Decision.Stop, Rationale.maxTemperatureReached)
      else if S ≤ T + config.waterPumpStopDifference then
        (Decision.Stop, Rationale.temperatureDifferenceTooLow)
      else (Decision.Hold, Rationale.noConditionMet) := by
  by_cases h1 : T ≥ config.maxWaterTemp
  · rw [if_pos h1]
    simp only [checkAndAdjust]
    rw [if_pos ⟨h1, trivial⟩]
  · rw [if_neg h1]
    by_cases h2 : S ≤ T + config.waterPumpStopDifference
    · rw [if_pos h2]
      simp only [checkAndAdjust]
      rw [if_neg (fun hc => h1 hc.1), if_pos ⟨h2, trivial⟩]
    · rw [if_neg h2]
      simp only [checkAndAdjust]
      rw [if_neg (fun hc => h1 hc.1), if_neg (fun hc => h2 hc.1), if_neg (by simp)]

/-- C4: whenever `waterPumpStopDifference < waterPumpHysteresis`, the
decision function cannot oscillate: if an evaluation results in `Start`
or `Stop` and the pump state is updated accordingly, re-evaluating the
identical readings against the updated pump state results in `Hold`,
never the opposite command. -/
theorem checkAndAdjust_no_oscillation (config : Configuration)
    (tankReading sourceReading : Option ℚ) (pumpRunning : Bool)
    (hhyst : config.waterPumpStopDifference < config.waterPumpHysteresis)
    (hd : (checkAndAdjust config tankReading sourceReading pumpRunning).1 = Decision.Start ∨
      (checkAndAdjust config tankReading sourceReading pumpRunning).1 = Decision.Stop) :
    (checkAndAdjust config tankReading sourceReading
      (applyDecision (checkAndAdjust config tankReading sourceReading pumpRunning).1
        pumpRunning)).1 = Decision.Hold := by
  cases tankReading with
  | none => simp [checkAndAdjust] at hd
  | some T =>
    cases sourceReading with
    | none => simp [checkAndAdjust] at hd
    | some S =>
      cases pumpRunning with
      | false =>
        rw [checkAndAdjust_some_false] at hd ⊢
        by_cases h3 : T < config.maxWaterTemp ∧ S ≥ T + config.waterPumpHysteresis
        · rw [if_pos h3]
          show (checkAndAdjust config (some T) (some S) true).1 = Decision.Hold
          have hg : T + config.waterPumpHysteresis ≤ S := h3.2
          rw [checkAndAdjust_some_true, if_neg (not_le.mpr h3.1),
            if_neg (by intro hc; linarith)]
        · rw [if_neg h3] at hd
          simp at hd
      | true =>
        rw [checkAndAdjust_some_true] at hd ⊢
        by_cases h1 : T ≥ config.maxWaterTemp
        · rw [if_pos h1]
          show (checkAndAdjust config (some T) (some S) false).1 = Decision.Hold
          rw [checkAndAdjust_some_false, if_neg (fun hc => not_lt.mpr h1 hc.1)]
        · rw [if_neg h1] at hd ⊢
          by_cases h2 : S ≤ T + config.waterPumpStopDifference
          · rw [if_pos h2]
            show (checkAndAdjust config (some T) (some S) false).1 = Decision.Hold
            rw [checkAndAdjust_some_false,
              if_neg (by intro hc; have hg : T + config.waterPumpHysteresis ≤ S := hc.2; linarith)]
          · rw [if_neg h2] at hd
            simp at hd

theorem checkAndAdjust_no_oscillation_witness :
    defaultConfiguration.waterPumpStopDifference < defaultConfiguration.waterPumpHysteresis ∧
    (checkAndAdjust defaultConfiguration (some 40) (some 48) false).1 = Decision.Start ∧
    (checkAndAdjust defaultConfiguration (some 40) (some 48)
      (applyDecision (checkAndAdjust defaultConfiguration (some 40) (some 48) false).1
        false)).1 = Decision.Hold :=
  ⟨by norm_num [defaultConfiguration],
   by norm_num [checkAndAdjust, defaultConfiguration],
   checkAndAdjust_no_oscillation defaultConfiguration (some 40) (some 48) false
     (by norm_num [defaultConfiguration])
     (Or.inl (by norm_num [checkAndAdjust, defaultConfiguration]))⟩

theorem lookupKey_buildConfig_filter (k : String)
    (hk : decide (k ∈ recognizedFields) = true) (overrides : JsObj) :
    lookupKey k (buildConfig
        (overrides.filter (fun p => decide (p.1 ∈ recognizedFields)))) =
      lookupKey k (buildConfig overrides) := by
  simp only [buildConfig, objAssign]
  rw [lookupKey_append, lookupKey_append,
    lookupKey_filter k (fun s => decide (s ∈ recognizedFields)) hk]

/-- C7: configuration construction merges overrides over the fixed
defaults: an empty override object yields exactly the default
Configuration (scanInterval 30, maxWaterTemp 65, waterPumpHysteresis 7,
waterPumpStopDifference 5, debuggingOn false, two distinct sensor ids
100 and 101), and overriding maxWaterTemp and scanInterval changes
exactly those two fields. -/
theorem buildConfig_merges_over_defaults :
    toConfigFields (buildConfig []) = toConfigFields DEFAULT_CONFIG ∧
    toConfigFields DEFAULT_CONFIG =
      { scanInterval := some (ConfigValue.num 30),
        hotWaterTemperatureID := some (ConfigValue.num 100),
        heatingSourceTemperatureID := some (ConfigValue.num 101),
        maxWaterTemp := some (ConfigValue.num 65),
        waterPumpHysteresis := some (ConfigValue.num 7),
        waterPumpStopDifference := some (ConfigValue.num 5),
        debuggingOn := some (ConfigValue.bool false) } ∧
    toConfigFields (buildConfig
        [("maxWaterTemp", ConfigValue.num 80), ("scanInterval", ConfigValue.num 60)]) =
      { toConfigFields DEFAULT_CONFIG with
        maxWaterTemp := some (ConfigValue.num 80),
        scanInterval := some (ConfigValue.num 60) } ∧
    (toConfigFields DEFAULT_CONFIG).hotWaterTemperatureID ≠
      (toConfigFields DEFAULT_CONFIG).heatingSourceTemperatureID := by
  refine ⟨rfl, rfl, rfl, fun h => ?_⟩
  simp [toConfigFields, DEFAULT_CONFIG, lookupKey] at h

/-- C8: override entries whose field name is not among the recognized
configuration fields have no effect: the resulting Configuration equals
the one built from the same overrides with the unrecognized entries
removed (and, being a projection onto the recognized fields, contains
no unrecognized names). -/
theorem buildConfig_ignores_unrecognized (overrides : JsObj) :
    toConfigFields (buildConfig overrides) =
      toConfigFields (buildConfig
        (overrides.filter (fun p => decide (p.1 ∈ recognizedFields)))) := by
  simp only [toConfigFields, ConfigFields.mk.injEq]
  exact ⟨(lookupKey_buildConfig_filter "scanInterval" rfl overrides).symm,
    (lookupKey_buildConfig_filter "hotWaterTemperatureID" rfl overrides).symm,
    (lookupKey_buildConfig_filter "heatingSourceTemperatureID" rfl overrides).symm,
    (lookupKey_buildConfig_filter "maxWaterTemp" rfl overrides).symm,
    (lookupKey_buildConfig_filter "waterPumpHysteresis" rfl overrides).symm,
    (lookupKey_buildConfig_filter "waterPumpStopDifference" rfl overrides).symm,
    (lookupKey_buildConfig_filter "debuggingOn" rfl overrides).symm⟩

/-- C9 counterexample: when the stored override data fails to parse,
the `init` callback emits no message at all — the parse `catch` is
empty, and the outcome line is gated behind `debuggingOn`, which is
false once defaults apply — so, contrary to the claim, the fault is not
reported. -/
theorem initLog_malformed_silent : initLog KvsOutcome.malformed = [] := rfl

/-- C9 (amended): malformed override data is recovered by treating it
as no overrides — the resulting Configuration equals the defaults
field-for-field — but the fault is not reported: the startup emission
is identical to the case where no override value exists at all. -/
theorem initConfig_malformed_defaults :
    toConfigFields (initConfig KvsOutcome.malformed) = toConfigFields DEFAULT_CONFIG ∧
    initLog KvsOutcome.malformed = initLog KvsOutcome.noValue :=
  ⟨rfl, rfl⟩

/-- C10: at startup, after the configuration is loaded and before the
first evaluation, `run` unconditionally issues a `Stop` command
(`Switch.Set` off) to the actuator, regardless of the configuration
contents, the current pump state, or any sensor values. -/
theorem runStartupCommands_first_stop (config : Configuration)
    (tankReading sourceReading : Option ℚ) (pumpRunning : Bool) :
    (runStartupCommands config tankReading sourceReading pumpRunning).head? =
      some (ActuatorCommand.set false) := rfl
